import Mathlib

/-!
Shallow embedding of the front-manager client (src/scripts/main.js).

The application is a Foundry VTT window managing a tree of Fronts, each
owning Dangers, which own Grim Portents, Secrets and Locations.  The state
of the `FrontManagerApp` class and its handlers are embedded as pure Lean
functions: the remote server is modelled by passing the outcome of each
network call (`saveOk : Bool` for the save POST, an `Except` for the fetch
GET) as an explicit argument, and the side effects of a handler (which
calls it made, which toasts it showed) are returned in a `StepResult`
record.  Absent JS array fields are modelled as empty lists; the JS `Set`
objects holding the expanded ids are modelled as `Finset String`.
-/

namespace FrontManager

/-- A Grim Portent: `{ id, text, completed }` (see the add-portent handler). -/
structure Portent where
  id : String
  text : String
  completed : Bool
deriving DecidableEq

/-- A Secret: `{ id, xp, text, revealed, revealedAt }` (see the add-secret dialog).
`revealedAt` is a server-side timestamp, `null` when unrevealed. -/
structure Secret where
  id : String
  xp : Int
  text : String
  revealed : Bool
  revealedAt : Option Int
deriving DecidableEq

/-- A Danger as created by the add-danger dialog. -/
structure Danger where
  id : String
  name : String
  dangerType : String
  impulse : String
  impendingDoom : String
  grimPortents : List Portent
  secrets : List Secret
  locations : List String
deriving DecidableEq

/-- A Front as created by the add-front dialog.  `type` is the campaign or
adventure selector value. -/
structure Front where
  id : String
  name : String
  type : String
  cast : List String
  stakes : List String
  playerHooks : List String
  dangers : List Danger
deriving DecidableEq

/-- The root document fetched from `GET /api/fronts`: `{ fronts: Front[] }`. -/
structure FrontsDocument where
  fronts : List Front
deriving DecidableEq

/-- The private fields of `FrontManagerApp` that the handlers read and write:
`#frontsData`, `#expandedFronts`, `#expandedDangers`, `#loading`, `#error`,
`#scrollPosition`. -/
structure AppState where
  frontsData : Option FrontsDocument
  expandedFronts : Finset String
  expandedDangers : Finset String
  loading : Bool
  error : Option String
  scrollPosition : Int
deriving DecidableEq

/-- The kind of a `ui.notifications` toast raised by a handler. -/
inductive NoteKind where
  | info : NoteKind
  | errorNote : NoteKind
deriving DecidableEq

/-- The JS `String.prototype.trim()` used on every dialog input: strip
leading and trailing whitespace. -/
def strTrim (s : String) : String :=
  ⟨((s.data.dropWhile Char.isWhitespace).reverse.dropWhile Char.isWhitespace).reverse⟩

-- ---------------------------------------------------------------------------
-- API communication
-- ---------------------------------------------------------------------------

/-- Model of `#fetchFronts`: sets `#loading = true` and `#error = null` on entry; on a
successful response stores the parsed document in `#frontsData`; on any
failure (non-ok status or thrown error) records an error message and leaves
`#frontsData` untouched; `#loading` is reset to `false` in the `finally`
block on both paths.  The network outcome is passed in as `r`. -/
def fetchFronts (s : AppState) (r : Except String FrontsDocument) : AppState :=
  match r with
  | Except.ok doc => { s with frontsData := some doc, error := none, loading := false }
  | Except.error msg => { s with frontsData := s.frontsData, error := some msg, loading := false }

/-- The `refresh` public method and the refresh button handler: null out
`#frontsData`, then `#fetchFronts` (the re-render that follows does not
change these fields). -/
def refreshStep (s : AppState) (r : Except String FrontsDocument) : AppState :=
  fetchFronts { s with frontsData := none } r

/-- Model of `#saveFronts`: POSTs the current document; returns `true` on success and,
on failure, shows an error toast and returns `false`.  The outcome of the
POST is passed in as `saveOk`; the result is the returned boolean together
with the toasts raised. -/
def saveFronts (saveOk : Bool) : Bool × List NoteKind :=
  if saveOk then (true, []) else (false, [NoteKind.errorNote])

-- ---------------------------------------------------------------------------
-- Helper methods (entity accessors)
-- ---------------------------------------------------------------------------

/-- Model of `#getFront(frontId)`: `this.#frontsData?.fronts?.find(f => f.id === frontId)`.
The optional chaining makes a `null` document yield `undefined`. -/
def findFront (doc : Option FrontsDocument) (frontId : String) : Option Front :=
  match doc with
  | none => none
  | some d => d.fronts.find? (fun f => f.id = frontId)

/-- The loop body of `#getDanger`: scan the fronts in order; inside each
front, `front.dangers.find(d => d.id === dangerId)`; return the first hit
together with its owning front. -/
def findDangerIn (fs : List Front) (dangerId : String) : Option (Front × Danger) :=
  match fs with
  | [] => none
  | f :: rest =>
    match f.dangers.find? (fun d => d.id = dangerId) with
    | some dg => some (f, dg)
    | none => findDangerIn rest dangerId

/-- Model of `#getDanger(dangerId)`: iterates `this.#frontsData?.fronts || []`, so a
`null` document scans the empty list and returns `null`. -/
def findDanger (doc : Option FrontsDocument) (dangerId : String) : Option (Front × Danger) :=
  match doc with
  | none => none
  | some d => findDangerIn d.fronts dangerId

/-- Modelled from the spec wording of `findDanger` for comparison: a single
linear scan over all pairs (front, danger) of the document in order, first
match on the danger id wins. -/
def findDangerSpec (d : FrontsDocument) (dangerId : String) : Option (Front × Danger) :=
  (d.fronts.flatMap (fun f => f.dangers.map (fun dg => (f, dg)))).find?
    (fun p => p.2.id = dangerId)

-- ---------------------------------------------------------------------------
-- Expansion toggling
-- ---------------------------------------------------------------------------

/-- The body of the toggle-front and toggle-danger click handlers: if the id
is in the set, delete it, else add it. -/
def toggleId (s : Finset String) (x : String) : Finset String :=
  if x ∈ s then s.erase x else insert x s

/-- The toggle-front handler applied to the application state (the `render`
call that follows does not change the state fields). -/
def toggleFrontStep (s : AppState) (frontId : String) : AppState :=
  { s with expandedFronts := toggleId s.expandedFronts frontId }

/-- The toggle-danger handler applied to the application state. -/
def toggleDangerStep (s : AppState) (dangerId : String) : AppState :=
  { s with expandedDangers := toggleId s.expandedDangers dangerId }

-- ---------------------------------------------------------------------------
-- Context preparation
-- ---------------------------------------------------------------------------

/-- A danger as produced by `_prepareContext`: all danger fields spread, plus
the `expanded` flag. -/
structure PreparedDanger where
  danger : Danger
  expanded : Bool
deriving DecidableEq

/-- A front as produced by `_prepareContext`: all front fields spread
(kept in `base`; the spread `dangers` field is superseded by the prepared
list), plus the `expanded` flag. -/
structure PreparedFront where
  base : Front
  expanded : Bool
  dangers : List PreparedDanger
deriving DecidableEq

/-- The `fronts` value computed by `_prepareContext`:
`(this.#frontsData?.fronts || []).map(...)` with
`expanded: this.#expandedFronts.has(front.id)` on each front and
`expanded: this.#expandedDangers.has(danger.id)` on each danger. -/
def prepareFronts (doc : Option FrontsDocument)
    (expandedFronts expandedDangers : Finset String) : List PreparedFront :=
  (match doc with
   | none => []
   | some d => d.fronts).map (fun f =>
    { base := f
      expanded := decide (f.id ∈ expandedFronts)
      dangers := f.dangers.map (fun dg =>
        { danger := dg, expanded := decide (dg.id ∈ expandedDangers) }) })

-- ---------------------------------------------------------------------------
-- Mutation orchestrator
-- ---------------------------------------------------------------------------

/-- The observable outcome of one user action: the application state after
the handler finished, whether `#saveFronts`, `#fetchFronts` and `render`
were called, the document payload handed to the save POST (if any), and the
toasts raised in order. -/
structure StepResult where
  state : AppState
  saveCalled : Bool
  fetchCalled : Bool
  renderCalled : Bool
  savedDoc : Option FrontsDocument
  notes : List NoteKind
deriving DecidableEq

/-- A handler path that returns without doing anything. -/
def noOpStep (s : AppState) : StepResult :=
  { state := s, saveCalled := false, fetchCalled := false, renderCalled := false
    savedDoc := none, notes := [] }

/-- The common tail of every mutating handler once the in-memory document has
been mutated to `doc`:
`await this.#saveFronts(); await this.#fetchFronts(); this.render();`.
Note that the boolean returned by `#saveFronts` is not consulted: the
refetch and the re-render happen unconditionally. -/
def persistCycle (s : AppState) (doc : FrontsDocument) (saveOk : Bool)
    (fetchRes : Except String FrontsDocument) : StepResult :=
  let s1 := { s with frontsData := some doc }
  let s2 := fetchFronts s1 fetchRes
  { state := s2, saveCalled := true, fetchCalled := true, renderCalled := true
    savedDoc := some doc, notes := (saveFronts saveOk).2 }

/-- Mutate the first front whose id matches, as in-place mutation of the
object returned by `find` does. -/
def updFirstFront (fs : List Front) (frontId : String) (g : Front → Front) : List Front :=
  match fs with
  | [] => []
  | f :: rest =>
    if f.id = frontId then g f :: rest else f :: updFirstFront rest frontId g

/-- Mutate the first danger of a list whose id matches. -/
def updFirstDangerIn (ds : List Danger) (dangerId : String) (g : Danger → Danger) : List Danger :=
  match ds with
  | [] => []
  | d :: rest =>
    if d.id = dangerId then g d :: rest else d :: updFirstDangerIn rest dangerId g

/-- Mutate, in the first front that contains a danger with the given id, the
first such danger — the object `#getDanger` returns. -/
def updFirstDanger (fs : List Front) (dangerId : String) (g : Danger → Danger) : List Front :=
  match fs with
  | [] => []
  | f :: rest =>
    if (f.dangers.find? (fun d => d.id = dangerId)).isSome then
      { f with dangers := updFirstDangerIn f.dangers dangerId g } :: rest
    else f :: updFirstDanger rest dangerId g

/-- Resolve a front with `#getFront` and, when found, apply the mutation to
it; `none` when resolution fails (the handler then falls through). -/
def mutFrontDoc (doc : Option FrontsDocument) (frontId : String)
    (g : Front → Front) : Option FrontsDocument :=
  match doc with
  | none => none
  | some d =>
    match d.fronts.find? (fun f => f.id = frontId) with
    | none => none
    | some _ => some ⟨updFirstFront d.fronts frontId g⟩

/-- Resolve a danger with `#getDanger` and, when found, apply the mutation to
it; `none` when resolution fails. -/
def mutDangerDoc (doc : Option FrontsDocument) (dangerId : String)
    (g : Danger → Danger) : Option FrontsDocument :=
  match findDanger doc dangerId with
  | none => none
  | some _ =>
    match doc with
    | none => none
    | some d => some ⟨updFirstDanger d.fronts dangerId g⟩

/-- Model of `#showEditTextDialog` with the save button pressed: the submitted value
is trimmed; a falsy (empty) trim runs no callback at all; otherwise the
`onSave` callback runs (it resolves its target itself and may fall through),
and afterwards the `Gespeichert` info toast is shown unconditionally.
`onSave` returns the mutated document, or `none` when its resolution
failed. -/
def runTextDialog (s : AppState) (raw : String)
    (onSave : String → Option FrontsDocument) (saveOk : Bool)
    (fetchRes : Except String FrontsDocument) : StepResult :=
  let value := (strTrim raw)
  if value = "" then noOpStep s
  else
    match onSave value with
    | none => { noOpStep s with notes := [NoteKind.info] }
    | some doc =>
      let r := persistCycle s doc saveOk fetchRes
      { r with notes := r.notes ++ [NoteKind.info] }

/-- A handler without a dialog (the delete buttons): resolve and mutate, and
when resolution fails fall through silently. -/
def runDirect (s : AppState) (mutated : Option FrontsDocument) (saveOk : Bool)
    (fetchRes : Except String FrontsDocument) : StepResult :=
  match mutated with
  | none => noOpStep s
  | some doc => persistCycle s doc saveOk fetchRes

/-- The observable outcome shared by every handler run that reached the
save: some document was handed to the save POST, the refetch and the
re-render happened unconditionally, the state document is whatever the
refetch produced over the saved payload, and the notes start with the save
toasts followed by a handler-specific tail. -/
def PersistOutcome (X : StepResult) (s : AppState) (saveOk : Bool)
    (fetchRes : Except String FrontsDocument) : Prop :=
  ∃ doc, X.savedDoc = some doc ∧ X.fetchCalled = true ∧ X.renderCalled = true ∧
    X.state.frontsData
      = (fetchFronts { s with frontsData := some doc } fetchRes).frontsData ∧
    ∃ tail, X.notes = (saveFronts saveOk).2 ++ tail

-- ---------------------------------------------------------------------------
-- Structured dialogs
-- ---------------------------------------------------------------------------

/-- Model of `#showAddFrontDialog` with the save button pressed: trim the name and do
nothing when it is blank; otherwise push a new front with empty `cast`,
`stakes`, `playerHooks` and `dangers`, save, refetch, add the new id to the
expanded-front set, render, then show an info toast.  When `#frontsData` is
`null` the JS `this.#frontsData.fronts.push` raises a TypeError before any
mutation, save or render: the observable fields equal `noOpStep`. -/
def runAddFrontDialog (s : AppState) (newId nameRaw typeSel : String)
    (saveOk : Bool) (fetchRes : Except String FrontsDocument) : StepResult :=
  let name := (strTrim nameRaw)
  if name = "" then noOpStep s
  else
    match s.frontsData with
    | none => noOpStep s
    | some d =>
      let newFront : Front :=
        { id := newId, name := name, type := typeSel
          cast := [], stakes := [], playerHooks := [], dangers := [] }
      let r := persistCycle s ⟨d.fronts ++ [newFront]⟩ saveOk fetchRes
      { r with
          state := { r.state with expandedFronts := insert newId r.state.expandedFronts }
          notes := r.notes ++ [NoteKind.info] }

/-- Model of `#showAddDangerDialog` with the save button pressed: all four inputs are
trimmed; a blank name is rejected; `dangerType`, `impulse` and `doom` fall
back to `Unknown`, `to cause chaos` and `Destruction` when blank.  The
front is resolved with `#getFront`; when found, the new danger (with empty
`grimPortents`, `secrets` and `locations`) is pushed to its `dangers`, then
save, refetch, add the new id to the expanded-danger set, render, info
toast. -/
def runAddDangerDialog (s : AppState) (frontId newId : String)
    (nameRaw typeRaw impulseRaw doomRaw : String)
    (saveOk : Bool) (fetchRes : Except String FrontsDocument) : StepResult :=
  let name := (strTrim nameRaw)
  let dangerType := (strTrim typeRaw)
  let impulse := (strTrim impulseRaw)
  let doom := (strTrim doomRaw)
  if name = "" then noOpStep s
  else
    let newDanger : Danger :=
      { id := newId, name := name
        dangerType := if dangerType = "" then "Unknown" else dangerType
        impulse := if impulse = "" then "to cause chaos" else impulse
        impendingDoom := if doom = "" then "Destruction" else doom
        grimPortents := [], secrets := [], locations := [] }
    match mutFrontDoc s.frontsData frontId
        (fun f => { f with dangers := f.dangers ++ [newDanger] }) with
    | none => noOpStep s
    | some doc =>
      let r := persistCycle s doc saveOk fetchRes
      { r with
          state := { r.state with expandedDangers := insert newId r.state.expandedDangers }
          notes := r.notes ++ [NoteKind.info] }

/-- Model of `#showAddSecretDialog` with the save button pressed: the text is trimmed
and a blank text rejected; the danger is resolved with `#getDanger`; when
found, a new secret `{ id, xp, text, revealed: false, revealedAt: null }` is
pushed to its `secrets`, then save, refetch, render, info toast. -/
def runAddSecretDialog (s : AppState) (dangerId newId : String) (xpSel : Int)
    (textRaw : String) (saveOk : Bool)
    (fetchRes : Except String FrontsDocument) : StepResult :=
  let text := (strTrim textRaw)
  if text = "" then noOpStep s
  else
    match mutDangerDoc s.frontsData dangerId
        (fun d => { d with secrets := d.secrets ++
          [{ id := newId, xp := xpSel, text := text, revealed := false, revealedAt := none }] }) with
    | none => noOpStep s
    | some doc =>
      let r := persistCycle s doc saveOk fetchRes
      { r with notes := r.notes ++ [NoteKind.info] }

/-- Model of `#showEditDangerDialog` with the save button pressed: the danger is
resolved when the dialog opens (`if (!result) return;`); the save callback
assigns the four trimmed values unconditionally — there is no blank check —
then save, refetch, render, info toast. -/
def runEditDangerDialog (s : AppState) (dangerId : String)
    (nameRaw typeRaw impulseRaw doomRaw : String)
    (saveOk : Bool) (fetchRes : Except String FrontsDocument) : StepResult :=
  match mutDangerDoc s.frontsData dangerId
      (fun d => { d with
        name := (strTrim nameRaw), dangerType := (strTrim typeRaw)
        impulse := (strTrim impulseRaw), impendingDoom := (strTrim doomRaw) }) with
  | none => noOpStep s
  | some doc =>
    let r := persistCycle s doc saveOk fetchRes
    { r with notes := r.notes ++ [NoteKind.info] }


/-- The portent lookup of the edit-portent click handler:
`result?.danger?.grimPortents?.find(p => p.id === portentId)` after
`#getDanger(dangerId)`. -/
def findPortent (doc : Option FrontsDocument) (dangerId portentId : String) :
    Option Portent :=
  match findDanger doc dangerId with
  | none => none
  | some (_, dg) => dg.grimPortents.find? (fun p => p.id = portentId)

/-- The secret lookup of the edit-secret click handler:
`result?.danger?.secrets?.find(s => s.id === secretId)` after
`#getDanger(dangerId)`. -/
def findSecret (doc : Option FrontsDocument) (dangerId secretId : String) :
    Option Secret :=
  match findDanger doc dangerId with
  | none => none
  | some (_, dg) => dg.secrets.find? (fun x => x.id = secretId)

/-- Mutate the first portent of a list whose id matches. -/
def updFirstPortentIn (ps : List Portent) (portentId : String)
    (g : Portent → Portent) : List Portent :=
  match ps with
  | [] => []
  | p :: rest =>
    if p.id = portentId then g p :: rest else p :: updFirstPortentIn rest portentId g

/-- Mutate the first secret of a list whose id matches. -/
def updFirstSecretIn (xs : List Secret) (secretId : String)
    (g : Secret → Secret) : List Secret :=
  match xs with
  | [] => []
  | x :: rest =>
    if x.id = secretId then g x :: rest else x :: updFirstSecretIn rest secretId g

/-- Resolve a portent through `#getDanger` plus `find` (the edit-portent
handler) and, when found, set its text — mutation of the found object;
`none` when resolution fails and the callback falls through. -/
def mutPortentDoc (doc : Option FrontsDocument) (dangerId portentId : String)
    (v : String) : Option FrontsDocument :=
  match findPortent doc dangerId portentId with
  | none => none
  | some _ =>
    mutDangerDoc doc dangerId (fun d =>
      { d with grimPortents :=
          updFirstPortentIn d.grimPortents portentId (fun p => { p with text := v }) })

/-- Resolve a secret through `#getDanger` plus `find` (the edit-secret
handler) and, when found, apply the mutation to it; `none` when resolution
fails (`if (!secret) return;` keeps the dialog from opening). -/
def mutSecretDoc (doc : Option FrontsDocument) (dangerId secretId : String)
    (g : Secret → Secret) : Option FrontsDocument :=
  match findSecret doc dangerId secretId with
  | none => none
  | some _ =>
    mutDangerDoc doc dangerId (fun d =>
      { d with secrets := updFirstSecretIn d.secrets secretId g })

/-- Model of `#showEditSecretDialog` with the save button pressed: the dialog
only opens when the secret resolved at click time; its save callback assigns
the selected xp and the trimmed text unconditionally — there is no blank
check — then save, refetch, render, info toast. -/
def runEditSecretDialog (s : AppState) (dangerId secretId : String) (xpSel : Int)
    (textRaw : String) (saveOk : Bool)
    (fetchRes : Except String FrontsDocument) : StepResult :=
  match mutSecretDoc s.frontsData dangerId secretId
      (fun x => { x with xp := xpSel, text := strTrim textRaw }) with
  | none => noOpStep s
  | some doc =>
    let r := persistCycle s doc saveOk fetchRes
    { r with notes := r.notes ++ [NoteKind.info] }

/-- The mutating actions of the orchestrator: every add/edit/delete handler
of `_onRender` (and, for dialog actions, its save callback).  Text-dialog
actions carry the raw submitted value; creation actions carry the id
`#generateId` produced; `deleteDanger` carries the outcome of the
confirmation dialog. -/
inductive MutAction where
  | editFrontName (frontId : String) (raw : String)
  | addCast (frontId : String) (raw : String)
  | editCast (frontId : String) (index : Nat) (raw : String)
  | deleteCast (frontId : String) (index : Nat)
  | addStake (frontId : String) (raw : String)
  | editStake (frontId : String) (index : Nat) (raw : String)
  | deleteStake (frontId : String) (index : Nat)
  | deleteDanger (frontId : String) (dangerId : String) (confirmed : Bool)
  | editImpulse (dangerId : String) (raw : String)
  | editDoom (dangerId : String) (raw : String)
  | addPortent (dangerId : String) (newId : String) (raw : String)
  | deletePortent (dangerId : String) (portentId : String)
  | deleteSecret (dangerId : String) (secretId : String)
  | addLocation (dangerId : String) (raw : String)
  | editLocation (dangerId : String) (index : Nat) (raw : String)
  | deleteLocation (dangerId : String) (index : Nat)
  | addFront (newId : String) (nameRaw typeSel : String)
  | addDanger (frontId newId : String) (nameRaw typeRaw impulseRaw doomRaw : String)
  | addSecret (dangerId newId : String) (xpSel : Int) (textRaw : String)
  | editDanger (dangerId : String) (nameRaw typeRaw impulseRaw doomRaw : String)
  | editPortent (dangerId portentId : String) (raw : String)
  | editSecret (dangerId secretId : String) (xpSel : Int) (textRaw : String)
deriving DecidableEq

/-- One mutating action of the orchestrator, run to completion: each case is
the corresponding `_onRender` handler (and, for dialog actions, its save
callback) from src/scripts/main.js.  JS `push` is `++ [v]`, `splice(i, 1)`
is `eraseIdx`, `arr[i] = v` is `set`, `filter` is `filter`. -/
def runAction (s : AppState) (a : MutAction) (saveOk : Bool)
    (fetchRes : Except String FrontsDocument) : StepResult :=
  match a with
  | MutAction.editFrontName fid raw =>
    runTextDialog s raw
      (fun v => mutFrontDoc s.frontsData fid (fun f => { f with name := v }))
      saveOk fetchRes
  | MutAction.addCast fid raw =>
    runTextDialog s raw
      (fun v => mutFrontDoc s.frontsData fid (fun f => { f with cast := f.cast ++ [v] }))
      saveOk fetchRes
  | MutAction.editCast fid idx raw =>
    runTextDialog s raw
      (fun v => mutFrontDoc s.frontsData fid (fun f => { f with cast := f.cast.set idx v }))
      saveOk fetchRes
  | MutAction.deleteCast fid idx =>
    runDirect s
      (mutFrontDoc s.frontsData fid (fun f => { f with cast := f.cast.eraseIdx idx }))
      saveOk fetchRes
  | MutAction.addStake fid raw =>
    runTextDialog s raw
      (fun v => mutFrontDoc s.frontsData fid (fun f => { f with stakes := f.stakes ++ [v] }))
      saveOk fetchRes
  | MutAction.editStake fid idx raw =>
    runTextDialog s raw
      (fun v => mutFrontDoc s.frontsData fid (fun f => { f with stakes := f.stakes.set idx v }))
      saveOk fetchRes
  | MutAction.deleteStake fid idx =>
    runDirect s
      (mutFrontDoc s.frontsData fid (fun f => { f with stakes := f.stakes.eraseIdx idx }))
      saveOk fetchRes
  | MutAction.deleteDanger fid did confirmed =>
    match confirmed with
    | true =>
      runDirect s
        (mutFrontDoc s.frontsData fid
          (fun f => { f with dangers := f.dangers.filter (fun d => !(d.id = did)) }))
        saveOk fetchRes
    | false => noOpStep s
  | MutAction.editImpulse did raw =>
    runTextDialog s raw
      (fun v => mutDangerDoc s.frontsData did (fun d => { d with impulse := v }))
      saveOk fetchRes
  | MutAction.editDoom did raw =>
    runTextDialog s raw
      (fun v => mutDangerDoc s.frontsData did (fun d => { d with impendingDoom := v }))
      saveOk fetchRes
  | MutAction.addPortent did newId raw =>
    runTextDialog s raw
      (fun v => mutDangerDoc s.frontsData did
        (fun d => { d with grimPortents :=
          d.grimPortents ++ [{ id := newId, text := v, completed := false }] }))
      saveOk fetchRes
  | MutAction.deletePortent did pid =>
    runDirect s
      (mutDangerDoc s.frontsData did
        (fun d => { d with grimPortents := d.grimPortents.filter (fun p => !(p.id = pid)) }))
      saveOk fetchRes
  | MutAction.deleteSecret did sid =>
    runDirect s
      (mutDangerDoc s.frontsData did
        (fun d => { d with secrets := d.secrets.filter (fun x => !(x.id = sid)) }))
      saveOk fetchRes
  | MutAction.addLocation did raw =>
    runTextDialog s raw
      (fun v => mutDangerDoc s.frontsData did
        (fun d => { d with locations := d.locations ++ [v] }))
      saveOk fetchRes
  | MutAction.editLocation did idx raw =>
    runTextDialog s raw
      (fun v => mutDangerDoc s.frontsData did
        (fun d => { d with locations := d.locations.set idx v }))
      saveOk fetchRes
  | MutAction.deleteLocation did idx =>
    runDirect s
      (mutDangerDoc s.frontsData did
        (fun d => { d with locations := d.locations.eraseIdx idx }))
      saveOk fetchRes
  | MutAction.addFront newId nameRaw typeSel =>
    runAddFrontDialog s newId nameRaw typeSel saveOk fetchRes
  | MutAction.addDanger fid newId nameRaw typeRaw impulseRaw doomRaw =>
    runAddDangerDialog s fid newId nameRaw typeRaw impulseRaw doomRaw saveOk fetchRes
  | MutAction.addSecret did newId xpSel textRaw =>
    runAddSecretDialog s did newId xpSel textRaw saveOk fetchRes
  | MutAction.editDanger did nameRaw typeRaw impulseRaw doomRaw =>
    runEditDangerDialog s did nameRaw typeRaw impulseRaw doomRaw saveOk fetchRes
  | MutAction.editPortent did pid raw =>
    runTextDialog s raw (fun v => mutPortentDoc s.frontsData did pid v) saveOk fetchRes
  | MutAction.editSecret did sid xpSel textRaw =>
    runEditSecretDialog s did sid xpSel textRaw saveOk fetchRes

/-- Whether the target entity of an action fails to resolve against the
current in-memory document (the `if (front)` / `if (result?.danger)` /
`if (portent)` / `if (!result) return` / `if (!secret) return` guards of
the handlers come out false).  `addFront` resolves no existing entity — it
only pushes a new front to the document root — so it has no target that
could be absent. -/
def targetAbsent (s : AppState) (a : MutAction) : Bool :=
  match a with
  | MutAction.editFrontName fid _ => (findFront s.frontsData fid).isNone
  | MutAction.addCast fid _ => (findFront s.frontsData fid).isNone
  | MutAction.editCast fid _ _ => (findFront s.frontsData fid).isNone
  | MutAction.deleteCast fid _ => (findFront s.frontsData fid).isNone
  | MutAction.addStake fid _ => (findFront s.frontsData fid).isNone
  | MutAction.editStake fid _ _ => (findFront s.frontsData fid).isNone
  | MutAction.deleteStake fid _ => (findFront s.frontsData fid).isNone
  | MutAction.deleteDanger fid _ _ => (findFront s.frontsData fid).isNone
  | MutAction.editImpulse did _ => (findDanger s.frontsData did).isNone
  | MutAction.editDoom did _ => (findDanger s.frontsData did).isNone
  | MutAction.addPortent did _ _ => (findDanger s.frontsData did).isNone
  | MutAction.deletePortent did _ => (findDanger s.frontsData did).isNone
  | MutAction.deleteSecret did _ => (findDanger s.frontsData did).isNone
  | MutAction.addLocation did _ => (findDanger s.frontsData did).isNone
  | MutAction.editLocation did _ _ => (findDanger s.frontsData did).isNone
  | MutAction.deleteLocation did _ => (findDanger s.frontsData did).isNone
  | MutAction.addFront _ _ _ => false
  | MutAction.addDanger fid _ _ _ _ _ => (findFront s.frontsData fid).isNone
  | MutAction.addSecret did _ _ _ => (findDanger s.frontsData did).isNone
  | MutAction.editDanger did _ _ _ _ => (findDanger s.frontsData did).isNone
  | MutAction.editPortent did pid _ => (findPortent s.frontsData did pid).isNone
  | MutAction.editSecret did sid _ _ => (findSecret s.frontsData did sid).isNone

-- ---------------------------------------------------------------------------
-- Id collections of a document (for the stale-id statements)
-- ---------------------------------------------------------------------------

/-- The front ids occurring in the (possibly null) document. -/
def docFrontIds (doc : Option FrontsDocument) : List String :=
  (match doc with | none => [] | some d => d.fronts).map Front.id

/-- The danger ids occurring in the (possibly null) document. -/
def docDangerIds (doc : Option FrontsDocument) : List String :=
  (match doc with | none => [] | some d => d.fronts).flatMap
    (fun f => f.dangers.map Danger.id)

-- ---------------------------------------------------------------------------
-- Concrete sample data (used by witnesses and counterexamples)
-- ---------------------------------------------------------------------------

/-- A sample portent. -/
def samplePortent : Portent := { id := "p1", text := "the river dries", completed := false }

/-- A sample secret. -/
def sampleSecret : Secret :=
  { id := "s1", xp := 20, text := "an old debt", revealed := false, revealedAt := none }

/-- A sample danger with id `d1`. -/
def sampleDanger : Danger :=
  { id := "d1", name := "Cult of Ash", dangerType := "Ambitious Organizations"
    impulse := "to spread corruption", impendingDoom := "Usurpation"
    grimPortents := [samplePortent], secrets := [sampleSecret]
    locations := ["ruined mill"] }

/-- A sample front with id `f1` owning `sampleDanger`. -/
def sampleFront : Front :=
  { id := "f1", name := "The Hollow King", type := "campaign"
    cast := ["the warden"], stakes := ["who holds the pass"]
    playerHooks := [], dangers := [sampleDanger] }

/-- A sample document holding `sampleFront`. -/
def sampleDoc : FrontsDocument := ⟨[sampleFront]⟩

/-- A second, distinct document, standing for a fetched server state. -/
def otherDoc : FrontsDocument := ⟨[]⟩

/-- A state holding `sampleDoc` with nothing expanded. -/
def sampleState : AppState :=
  { frontsData := some sampleDoc, expandedFronts := ∅, expandedDangers := ∅
    loading := false, error := none, scrollPosition := 0 }

/-- A state with no document loaded yet. -/
def nullState : AppState :=
  { frontsData := none, expandedFronts := ∅, expandedDangers := ∅
    loading := false, error := none, scrollPosition := 0 }

-- ---------------------------------------------------------------------------
-- Helper lemmas
-- ---------------------------------------------------------------------------

theorem mutFrontDoc_eq_none (doc : Option FrontsDocument) (fid : String)
    (g : Front → Front) (h : findFront doc fid = none) :
    mutFrontDoc doc fid g = none := by
  cases doc with
  | none => rfl
  | some d =>
    simp only [findFront] at h
    simp [mutFrontDoc, h]

theorem mutDangerDoc_eq_none (doc : Option FrontsDocument) (did : String)
    (g : Danger → Danger) (h : findDanger doc did = none) :
    mutDangerDoc doc did g = none := by
  simp [mutDangerDoc, h]

theorem mutPortentDoc_eq_none (doc : Option FrontsDocument) (did pid v : String)
    (h : findPortent doc did pid = none) : mutPortentDoc doc did pid v = none := by
  simp [mutPortentDoc, h]

theorem mutSecretDoc_eq_none (doc : Option FrontsDocument) (did sid : String)
    (g : Secret → Secret) (h : findSecret doc did sid = none) :
    mutSecretDoc doc did sid g = none := by
  simp [mutSecretDoc, h]

theorem noOpStep_state (s : AppState) : (noOpStep s).state = s := rfl

theorem noOpStep_triple (s : AppState) :
    (noOpStep s).state = s ∧ (noOpStep s).saveCalled = false ∧
    NoteKind.errorNote ∉ (noOpStep s).notes := by
  simp [noOpStep]

theorem runAddFrontDialog_no_target (s : AppState) (idF nR tySel : String)
    (saveOk : Bool) (fetchRes : Except String FrontsDocument)
    (hb : strTrim nR = "") :
    runAddFrontDialog s idF nR tySel saveOk fetchRes = noOpStep s := by
  simp [runAddFrontDialog, hb]

theorem runAddDangerDialog_abandoned (s : AppState) (fid idD nR tR iR dR : String)
    (saveOk : Bool) (fetchRes : Except String FrontsDocument)
    (h : findFront s.frontsData fid = none) :
    (runAddDangerDialog s fid idD nR tR iR dR saveOk fetchRes).state = s ∧
    (runAddDangerDialog s fid idD nR tR iR dR saveOk fetchRes).saveCalled = false ∧
    NoteKind.errorNote ∉ (runAddDangerDialog s fid idD nR tR iR dR saveOk fetchRes).notes := by
  unfold runAddDangerDialog
  by_cases hb : strTrim nR = ""
  · simp [hb, noOpStep]
  · rw [if_neg hb]
    have hn := mutFrontDoc_eq_none s.frontsData fid
      (fun f => { f with dangers := f.dangers ++
        [⟨idD, strTrim nR, (if strTrim tR = "" then "Unknown" else strTrim tR),
          (if strTrim iR = "" then "to cause chaos" else strTrim iR),
          (if strTrim dR = "" then "Destruction" else strTrim dR), [], [], []⟩] }) h
    simp only [hn]
    exact noOpStep_triple s

theorem runAddSecretDialog_abandoned (s : AppState) (did idS : String) (xpS : Int)
    (tS : String) (saveOk : Bool) (fetchRes : Except String FrontsDocument)
    (h : findDanger s.frontsData did = none) :
    (runAddSecretDialog s did idS xpS tS saveOk fetchRes).state = s ∧
    (runAddSecretDialog s did idS xpS tS saveOk fetchRes).saveCalled = false ∧
    NoteKind.errorNote ∉ (runAddSecretDialog s did idS xpS tS saveOk fetchRes).notes := by
  unfold runAddSecretDialog
  by_cases hb : strTrim tS = ""
  · simp [hb, noOpStep]
  · rw [if_neg hb, mutDangerDoc_eq_none _ _ _ h]
    exact noOpStep_triple s

theorem runEditDangerDialog_abandoned (s : AppState) (did nR tR iR dR : String)
    (saveOk : Bool) (fetchRes : Except String FrontsDocument)
    (h : findDanger s.frontsData did = none) :
    (runEditDangerDialog s did nR tR iR dR saveOk fetchRes).state = s ∧
    (runEditDangerDialog s did nR tR iR dR saveOk fetchRes).saveCalled = false ∧
    NoteKind.errorNote ∉ (runEditDangerDialog s did nR tR iR dR saveOk fetchRes).notes := by
  unfold runEditDangerDialog
  rw [mutDangerDoc_eq_none _ _ _ h]
  exact noOpStep_triple s

theorem runEditSecretDialog_abandoned (s : AppState) (did sid : String) (xpS : Int)
    (tS : String) (saveOk : Bool) (fetchRes : Except String FrontsDocument)
    (h : findSecret s.frontsData did sid = none) :
    (runEditSecretDialog s did sid xpS tS saveOk fetchRes).state = s ∧
    (runEditSecretDialog s did sid xpS tS saveOk fetchRes).saveCalled = false ∧
    NoteKind.errorNote ∉ (runEditSecretDialog s did sid xpS tS saveOk fetchRes).notes := by
  unfold runEditSecretDialog
  rw [mutSecretDoc_eq_none _ _ _ _ h]
  exact noOpStep_triple s

theorem runTextDialog_abandoned (s : AppState) (raw : String)
    (onSave : String → Option FrontsDocument) (saveOk : Bool)
    (fetchRes : Except String FrontsDocument)
    (h : onSave (strTrim raw) = none) :
    (runTextDialog s raw onSave saveOk fetchRes).state = s ∧
    (runTextDialog s raw onSave saveOk fetchRes).saveCalled = false ∧
    NoteKind.errorNote ∉ (runTextDialog s raw onSave saveOk fetchRes).notes := by
  unfold runTextDialog
  by_cases hv : (strTrim raw) = ""
  · simp [hv, noOpStep]
  · simp [hv, h, noOpStep]

theorem runDirect_abandoned (s : AppState) (saveOk : Bool)
    (fetchRes : Except String FrontsDocument) :
    (runDirect s none saveOk fetchRes).state = s ∧
    (runDirect s none saveOk fetchRes).saveCalled = false ∧
    NoteKind.errorNote ∉ (runDirect s none saveOk fetchRes).notes := by
  simp [runDirect, noOpStep]

theorem runTextDialog_saveCalled (s : AppState) (raw : String)
    (onSave : String → Option FrontsDocument) (saveOk : Bool)
    (fetchRes : Except String FrontsDocument)
    (h : (runTextDialog s raw onSave saveOk fetchRes).saveCalled = true) :
    ∃ doc, onSave (strTrim raw) = some doc ∧
      runTextDialog s raw onSave saveOk fetchRes =
        { persistCycle s doc saveOk fetchRes with
            notes := (persistCycle s doc saveOk fetchRes).notes ++ [NoteKind.info] } := by
  unfold runTextDialog at h ⊢
  by_cases hv : (strTrim raw) = ""
  · simp [hv, noOpStep] at h
  · simp only [hv, if_false]
    cases hd : onSave (strTrim raw) with
    | none => simp [hv, hd, noOpStep] at h
    | some doc => exact ⟨doc, rfl, rfl⟩

theorem runDirect_saveCalled (s : AppState) (m : Option FrontsDocument)
    (saveOk : Bool) (fetchRes : Except String FrontsDocument)
    (h : (runDirect s m saveOk fetchRes).saveCalled = true) :
    ∃ doc, m = some doc ∧
      runDirect s m saveOk fetchRes = persistCycle s doc saveOk fetchRes := by
  cases m with
  | none => simp [runDirect, noOpStep] at h
  | some doc => exact ⟨doc, rfl, rfl⟩

theorem find?_updFirstFront (fs : List Front) (fid : String) (g : Front → Front)
    (f : Front) (h : fs.find? (fun x => x.id = fid) = some f)
    (hg : (g f).id = f.id) :
    (updFirstFront fs fid g).find? (fun x => x.id = fid) = some (g f) := by
  induction fs with
  | nil => simp at h
  | cons a rest ih =>
    by_cases ha : a.id = fid
    · rw [List.find?_cons_of_pos _ (by simp [ha])] at h
      cases h
      unfold updFirstFront
      rw [if_pos ha]
      exact List.find?_cons_of_pos _ (by simp [hg, ha])
    · rw [List.find?_cons_of_neg _ (by simp [ha])] at h
      unfold updFirstFront
      rw [if_neg ha]
      rw [List.find?_cons_of_neg _ (by simp [ha])]
      exact ih h

theorem find?_updFirstDangerIn (ds : List Danger) (did : String)
    (g : Danger → Danger) (dg : Danger)
    (h : ds.find? (fun x => x.id = did) = some dg)
    (hg : (g dg).id = dg.id) :
    (updFirstDangerIn ds did g).find? (fun x => x.id = did) = some (g dg) := by
  induction ds with
  | nil => simp at h
  | cons a rest ih =>
    by_cases ha : a.id = did
    · rw [List.find?_cons_of_pos _ (by simp [ha])] at h
      cases h
      unfold updFirstDangerIn
      rw [if_pos ha]
      exact List.find?_cons_of_pos _ (by simp [hg, ha])
    · rw [List.find?_cons_of_neg _ (by simp [ha])] at h
      unfold updFirstDangerIn
      rw [if_neg ha]
      rw [List.find?_cons_of_neg _ (by simp [ha])]
      exact ih h

theorem findFront_mutFrontDoc (doc : Option FrontsDocument) (fid : String)
    (g : Front → Front) (f : Front)
    (h : findFront doc fid = some f) (hg : (g f).id = f.id) :
    mutFrontDoc doc fid g ≠ none ∧
    findFront (mutFrontDoc doc fid g) fid = some (g f) := by
  cases doc with
  | none => simp [findFront] at h
  | some d =>
    simp only [findFront] at h
    simp only [mutFrontDoc, h]
    exact ⟨by simp, by simp only [findFront]; exact find?_updFirstFront d.fronts fid g f h hg⟩

theorem findDangerIn_updFirstDanger (fs : List Front) (did : String)
    (g : Danger → Danger) (f : Front) (dg : Danger)
    (h : findDangerIn fs did = some (f, dg)) (hg : (g dg).id = dg.id) :
    (findDangerIn (updFirstDanger fs did g) did).map Prod.snd = some (g dg) := by
  induction fs with
  | nil => simp [findDangerIn] at h
  | cons a rest ih =>
    unfold findDangerIn at h
    unfold updFirstDanger
    cases hfind : a.dangers.find? (fun x => x.id = did) with
    | some dg0 =>
      simp only [hfind, Option.some.injEq, Prod.mk.injEq] at h
      obtain ⟨rfl, rfl⟩ := h
      have hupd := find?_updFirstDangerIn a.dangers did g dg0 hfind hg
      simp [findDangerIn, hfind, hupd]
    | none =>
      simp only [hfind] at h
      have hcond : ((a.dangers.find? fun x => x.id = did).isSome) = false := by
        simp [hfind]
      rw [if_neg (by simp [hcond])]
      unfold findDangerIn
      rw [hfind]
      exact ih h

theorem findDanger_mutDangerDoc (doc : Option FrontsDocument) (did : String)
    (g : Danger → Danger) (f : Front) (dg : Danger)
    (h : findDanger doc did = some (f, dg)) (hg : (g dg).id = dg.id) :
    mutDangerDoc doc did g ≠ none ∧
    (findDanger (mutDangerDoc doc did g) did).map Prod.snd = some (g dg) := by
  cases doc with
  | none => simp [findDanger] at h
  | some d =>
    simp only [findDanger] at h
    simp only [mutDangerDoc, findDanger, h]
    exact ⟨by simp, findDangerIn_updFirstDanger d.fronts did g f dg h hg⟩

theorem findDangerIn_eq_flatMap (fs : List Front) (did : String) :
    findDangerIn fs did =
      (fs.flatMap (fun f => f.dangers.map (fun dg => (f, dg)))).find?
        (fun p => p.2.id = did) := by
  induction fs with
  | nil => rfl
  | cons a rest ih =>
    unfold findDangerIn
    rw [List.flatMap_cons, List.find?_append, List.find?_map]
    cases hfind : a.dangers.find? (fun x => x.id = did) with
    | some dg => simp [Function.comp_def, hfind]
    | none => simp [Function.comp_def, hfind, ih]

-- ---------------------------------------------------------------------------
-- Claim theorems
-- ---------------------------------------------------------------------------

/-- C6: the entity accessors are pure total functions; on a null document or
an unmatched id they return `none` rather than failing, and `findDanger` is
exactly the first match of a linear scan over all pairs (owning front,
danger) of the document in order. -/
theorem find_accessors_null_tolerant_first_match_C6 :
    (∀ fid : String, findFront none fid = none) ∧
    (∀ did : String, findDanger none did = none) ∧
    (∀ (d : FrontsDocument) (did : String),
      findDanger (some d) did = findDangerSpec d did) := by
  refine ⟨fun _ => rfl, fun _ => rfl, fun d did => ?_⟩
  simp only [findDanger, findDangerSpec]
  exact findDangerIn_eq_flatMap d.fronts did

/-- C9: toggling an expansion id flips exactly that membership — the toggled
id is in the new set iff it was not in the old one, every other id keeps its
membership — and toggling twice restores the set, both for the raw set
operation and for the toggle-front / toggle-danger handler steps. -/
theorem toggle_expansion_involution_C9 (s : Finset String) (x y : String)
    (st : AppState) (fid did : String) :
    (x ∈ toggleId s x ↔ x ∉ s) ∧
    (y ≠ x → (y ∈ toggleId s x ↔ y ∈ s)) ∧
    toggleId (toggleId s x) x = s ∧
    toggleFrontStep (toggleFrontStep st fid) fid = st ∧
    toggleDangerStep (toggleDangerStep st did) did = st := by
  have hinv : ∀ (t : Finset String) (z : String), toggleId (toggleId t z) z = t := by
    intro t z
    by_cases hz : z ∈ t
    · simp [toggleId, hz, Finset.insert_erase hz]
    · simp [toggleId, hz, Finset.erase_insert hz]
  refine ⟨?_, ?_, hinv s x, ?_, ?_⟩
  · by_cases hx : x ∈ s <;> simp [toggleId, hx]
  · intro hyx
    by_cases hx : x ∈ s <;> simp [toggleId, hx, hyx, Ne.symm hyx]
  · simp [toggleFrontStep, hinv]
  · simp [toggleDangerStep, hinv]

/-- C10: every run of the fetch operation ends with the loading flag false,
and the error slot is cleared on entry, so a successful fetch leaves the
error null (and stores the fetched document); a failed fetch records the
new message. -/
theorem fetch_resets_loading_clears_error_C10 (s : AppState)
    (r : Except String FrontsDocument) :
    (fetchFronts s r).loading = false ∧
    (∀ d : FrontsDocument, r = Except.ok d →
      (fetchFronts s r).error = none ∧ (fetchFronts s r).frontsData = some d) := by
  cases r <;> simp [fetchFronts]

/-- C10 witness: a successful fetch from `sampleState`. -/
theorem fetch_resets_loading_clears_error_C10_witness :
    (fetchFronts sampleState (Except.ok otherDoc)).loading = false ∧
    (fetchFronts sampleState (Except.ok otherDoc)).error = none ∧
    (fetchFronts sampleState (Except.ok otherDoc)).frontsData = some otherDoc := by
  have h := fetch_resets_loading_clears_error_C10 sampleState (Except.ok otherDoc)
  exact ⟨h.1, (h.2 otherDoc rfl).1, (h.2 otherDoc rfl).2⟩

/-- C3 counterexample: the claim says a failed fetch leaves the document
reference null even when a document was present before the fetch; but
`#fetchFronts` never touches `#frontsData` on the failure path, so the
prior non-null document survives. -/
theorem fetch_failure_keeps_prior_document_counterexample_C3 :
    sampleState.frontsData = some sampleDoc ∧
    (fetchFronts sampleState (Except.error "connection refused")).frontsData
      = some sampleDoc := by
  exact ⟨rfl, rfl⟩

/-- C3 amended: on a failed fetch the document reference is left exactly as
it was (hence still null when it was null before — the initial load and the
explicit refresh, which nulls it first, are such cases) and the error
message is recorded; the document is never partially populated. -/
theorem fetch_failure_leaves_document_unchanged_C3 (s : AppState) (m : String) :
    (fetchFronts s (Except.error m)).frontsData = s.frontsData ∧
    (fetchFronts s (Except.error m)).error = some m ∧
    (s.frontsData = none → (fetchFronts s (Except.error m)).frontsData = none) ∧
    (refreshStep s (Except.error m)).frontsData = none := by
  refine ⟨rfl, rfl, ?_, rfl⟩
  intro h
  simp [fetchFronts, h]

/-- C3 amended witness: a failed initial load from the empty state. -/
theorem fetch_failure_leaves_document_unchanged_C3_witness :
    (fetchFronts nullState (Except.error "connection refused")).frontsData = none ∧
    (fetchFronts nullState (Except.error "connection refused")).error
      = some "connection refused" ∧
    (refreshStep sampleState (Except.error "connection refused")).frontsData = none := by
  have h1 := fetch_failure_leaves_document_unchanged_C3 nullState "connection refused"
  have h2 := fetch_failure_leaves_document_unchanged_C3 sampleState "connection refused"
  exact ⟨h1.2.2.1 rfl, h1.2.1, h2.2.2.2⟩

/-- C5: context preparation is a total function of the document and the two
expanded-id sets; each prepared front and danger carries `expanded` exactly
when its id is in the corresponding set; the output only depends on the
membership of ids that occur in the document, so inserting an id absent
from the document into either set leaves the output unchanged. -/
theorem prepare_context_stale_id_tolerant_C5 (doc : Option FrontsDocument)
    (eF eF2 eD eD2 : Finset String) :
    (∀ pf ∈ prepareFronts doc eF eD,
      pf.expanded = decide (pf.base.id ∈ eF) ∧
      ∀ pd ∈ pf.dangers, pd.expanded = decide (pd.danger.id ∈ eD)) ∧
    ((∀ i ∈ docFrontIds doc, i ∈ eF ↔ i ∈ eF2) →
     (∀ i ∈ docDangerIds doc, i ∈ eD ↔ i ∈ eD2) →
      prepareFronts doc eF eD = prepareFronts doc eF2 eD2) ∧
    (∀ x, x ∉ docFrontIds doc →
      prepareFronts doc (insert x eF) eD = prepareFronts doc eF eD) ∧
    (∀ x, x ∉ docDangerIds doc →
      prepareFronts doc eF (insert x eD) = prepareFronts doc eF eD) := by
  have hcong : ∀ (eA eB eC eE : Finset String),
      (∀ i ∈ docFrontIds doc, i ∈ eA ↔ i ∈ eB) →
      (∀ i ∈ docDangerIds doc, i ∈ eC ↔ i ∈ eE) →
      prepareFronts doc eA eC = prepareFronts doc eB eE := by
    intro eA eB eC eE hF hD
    unfold prepareFronts
    apply List.map_congr_left
    intro f hf
    have hfid : f.id ∈ docFrontIds doc := by
      unfold docFrontIds
      exact List.mem_map_of_mem Front.id hf
    have h1 : decide (f.id ∈ eA) = decide (f.id ∈ eB) :=
      decide_eq_decide.mpr (hF f.id hfid)
    have h2 : f.dangers.map (fun dg => PreparedDanger.mk dg (decide (dg.id ∈ eC)))
        = f.dangers.map (fun dg => PreparedDanger.mk dg (decide (dg.id ∈ eE))) := by
      apply List.map_congr_left
      intro dg hdg
      have hdid : dg.id ∈ docDangerIds doc := by
        unfold docDangerIds
        exact List.mem_flatMap.mpr ⟨f, hf, List.mem_map_of_mem Danger.id hdg⟩
      rw [decide_eq_decide.mpr (hD dg.id hdid)]
    rw [h1, h2]
  refine ⟨?_, hcong eF eF2 eD eD2, ?_, ?_⟩
  · intro pf hpf
    unfold prepareFronts at hpf
    obtain ⟨f, _, rfl⟩ := List.mem_map.mp hpf
    refine ⟨rfl, ?_⟩
    intro pd hpd
    obtain ⟨dg, _, rfl⟩ := List.mem_map.mp hpd
    rfl
  · intro x hx
    apply hcong
    · intro i hi
      have : i ≠ x := fun he => hx (he ▸ hi)
      simp [Finset.mem_insert, this]
    · intro i _
      exact Iff.rfl
  · intro x hx
    apply hcong
    · intro i _
      exact Iff.rfl
    · intro i hi
      have : i ≠ x := fun he => hx (he ▸ hi)
      simp [Finset.mem_insert, this]

/-- C5 witness: a ghost id inserted into the expanded-front set of
`sampleDoc` has no effect on the prepared context. -/
theorem prepare_context_stale_id_tolerant_C5_witness :
    ("ghost" ∉ docFrontIds (some sampleDoc)) ∧
    prepareFronts (some sampleDoc) (insert "ghost" ∅) ∅
      = prepareFronts (some sampleDoc) ∅ ∅ := by
  refine ⟨by decide, ?_⟩
  exact (prepare_context_stale_id_tolerant_C5 (some sampleDoc) ∅ ∅ ∅ ∅).2.2.1
    "ghost" (by decide)

/-- C8: for every mutating action of the orchestrator (add/edit/delete of a
cast line, stake, danger, portent, secret, location, or front-level field,
including the creation and structured-edit dialogs), when the target entity
does not resolve against the current in-memory document the action is
silently abandoned: the state is unchanged, no save call is issued and no
error toast is shown. -/
theorem silent_abandon_on_stale_target_C8 (s : AppState) (a : MutAction)
    (saveOk : Bool) (fetchRes : Except String FrontsDocument)
    (h : targetAbsent s a = true) :
    (runAction s a saveOk fetchRes).state = s ∧
    (runAction s a saveOk fetchRes).saveCalled = false ∧
    NoteKind.errorNote ∉ (runAction s a saveOk fetchRes).notes := by
  cases a with
  | editFrontName fid raw =>
    exact runTextDialog_abandoned _ _ _ _ _
      (mutFrontDoc_eq_none _ _ _ (Option.isNone_iff_eq_none.mp h))
  | addCast fid raw =>
    exact runTextDialog_abandoned _ _ _ _ _
      (mutFrontDoc_eq_none _ _ _ (Option.isNone_iff_eq_none.mp h))
  | editCast fid idx raw =>
    exact runTextDialog_abandoned _ _ _ _ _
      (mutFrontDoc_eq_none _ _ _ (Option.isNone_iff_eq_none.mp h))
  | deleteCast fid idx =>
    have hn := mutFrontDoc_eq_none s.frontsData fid
      (fun f => { f with cast := f.cast.eraseIdx idx })
      (Option.isNone_iff_eq_none.mp h)
    simp only [runAction, hn]
    exact runDirect_abandoned _ _ _
  | addStake fid raw =>
    exact runTextDialog_abandoned _ _ _ _ _
      (mutFrontDoc_eq_none _ _ _ (Option.isNone_iff_eq_none.mp h))
  | editStake fid idx raw =>
    exact runTextDialog_abandoned _ _ _ _ _
      (mutFrontDoc_eq_none _ _ _ (Option.isNone_iff_eq_none.mp h))
  | deleteStake fid idx =>
    have hn := mutFrontDoc_eq_none s.frontsData fid
      (fun f => { f with stakes := f.stakes.eraseIdx idx })
      (Option.isNone_iff_eq_none.mp h)
    simp only [runAction, hn]
    exact runDirect_abandoned _ _ _
  | deleteDanger fid did confirmed =>
    have hn := mutFrontDoc_eq_none s.frontsData fid
      (fun f => { f with dangers := f.dangers.filter (fun d => !(d.id = did)) })
      (Option.isNone_iff_eq_none.mp h)
    cases confirmed with
    | false => simp [runAction, noOpStep]
    | true =>
      simp only [runAction, hn]
      exact runDirect_abandoned _ _ _
  | editImpulse did raw =>
    exact runTextDialog_abandoned _ _ _ _ _
      (mutDangerDoc_eq_none _ _ _ (Option.isNone_iff_eq_none.mp h))
  | editDoom did raw =>
    exact runTextDialog_abandoned _ _ _ _ _
      (mutDangerDoc_eq_none _ _ _ (Option.isNone_iff_eq_none.mp h))
  | addPortent did newId raw =>
    exact runTextDialog_abandoned _ _ _ _ _
      (mutDangerDoc_eq_none _ _ _ (Option.isNone_iff_eq_none.mp h))
  | deletePortent did pid =>
    have hn := mutDangerDoc_eq_none s.frontsData did
      (fun d => { d with grimPortents := d.grimPortents.filter (fun p => !(p.id = pid)) })
      (Option.isNone_iff_eq_none.mp h)
    simp only [runAction, hn]
    exact runDirect_abandoned _ _ _
  | deleteSecret did sid =>
    have hn := mutDangerDoc_eq_none s.frontsData did
      (fun d => { d with secrets := d.secrets.filter (fun x => !(x.id = sid)) })
      (Option.isNone_iff_eq_none.mp h)
    simp only [runAction, hn]
    exact runDirect_abandoned _ _ _
  | addLocation did raw =>
    exact runTextDialog_abandoned _ _ _ _ _
      (mutDangerDoc_eq_none _ _ _ (Option.isNone_iff_eq_none.mp h))
  | editLocation did idx raw =>
    exact runTextDialog_abandoned _ _ _ _ _
      (mutDangerDoc_eq_none _ _ _ (Option.isNone_iff_eq_none.mp h))
  | deleteLocation did idx =>
    have hn := mutDangerDoc_eq_none s.frontsData did
      (fun d => { d with locations := d.locations.eraseIdx idx })
      (Option.isNone_iff_eq_none.mp h)
    simp only [runAction, hn]
    exact runDirect_abandoned _ _ _
  | addFront newId nameRaw typeSel =>
    simp [targetAbsent] at h
  | addDanger fid newId nameRaw typeRaw impulseRaw doomRaw =>
    exact runAddDangerDialog_abandoned _ _ _ _ _ _ _ _ _
      (Option.isNone_iff_eq_none.mp h)
  | addSecret did newId xpSel textRaw =>
    exact runAddSecretDialog_abandoned _ _ _ _ _ _ _
      (Option.isNone_iff_eq_none.mp h)
  | editDanger did nameRaw typeRaw impulseRaw doomRaw =>
    exact runEditDangerDialog_abandoned _ _ _ _ _ _ _ _
      (Option.isNone_iff_eq_none.mp h)
  | editPortent did pid raw =>
    exact runTextDialog_abandoned _ _ _ _ _
      (mutPortentDoc_eq_none _ _ _ _ (Option.isNone_iff_eq_none.mp h))
  | editSecret did sid xpSel textRaw =>
    exact runEditSecretDialog_abandoned _ _ _ _ _ _ _
      (Option.isNone_iff_eq_none.mp h)

/-- C8 witness: adding a location to a danger id absent from the document. -/
theorem silent_abandon_on_stale_target_C8_witness :
    targetAbsent sampleState (MutAction.addLocation "ghost" "new place") = true ∧
    (runAction sampleState (MutAction.addLocation "ghost" "new place") true
      (Except.ok otherDoc)).state = sampleState ∧
    (runAction sampleState (MutAction.addLocation "ghost" "new place") true
      (Except.ok otherDoc)).saveCalled = false ∧
    NoteKind.errorNote ∉ (runAction sampleState (MutAction.addLocation "ghost" "new place")
      true (Except.ok otherDoc)).notes := by
  have h := silent_abandon_on_stale_target_C8 sampleState
    (MutAction.addLocation "ghost" "new place") true (Except.ok otherDoc) (by decide)
  exact ⟨by decide, h.1, h.2.1, h.2.2⟩

theorem persistOutcome_of_tail {X : StepResult} {s : AppState} {doc : FrontsDocument}
    {saveOk : Bool} {fetchRes : Except String FrontsDocument} {tail : List NoteKind}
    (heq : X = { persistCycle s doc saveOk fetchRes with
      notes := (persistCycle s doc saveOk fetchRes).notes ++ tail }) :
    PersistOutcome X s saveOk fetchRes := by
  subst heq
  exact ⟨doc, rfl, rfl, rfl, rfl, tail, rfl⟩

theorem persistOutcome_of_plain {X : StepResult} {s : AppState} {doc : FrontsDocument}
    {saveOk : Bool} {fetchRes : Except String FrontsDocument}
    (heq : X = persistCycle s doc saveOk fetchRes) :
    PersistOutcome X s saveOk fetchRes := by
  subst heq
  exact ⟨doc, rfl, rfl, rfl, rfl, [], (List.append_nil _).symm⟩

theorem runAddFrontDialog_saveCalled (s : AppState) (idF nR tySel : String)
    (saveOk : Bool) (fetchRes : Except String FrontsDocument)
    (h : (runAddFrontDialog s idF nR tySel saveOk fetchRes).saveCalled = true) :
    PersistOutcome (runAddFrontDialog s idF nR tySel saveOk fetchRes) s saveOk fetchRes := by
  unfold runAddFrontDialog at h ⊢
  by_cases hb : strTrim nR = ""
  · simp [hb, noOpStep] at h
  · rw [if_neg hb] at h ⊢
    cases hd : s.frontsData with
    | none =>
      rw [hd] at h
      simp [noOpStep] at h
    | some d =>
      exact ⟨_, rfl, rfl, rfl, rfl, [NoteKind.info], rfl⟩

theorem runAddDangerDialog_saveCalled (s : AppState) (fid idD nR tR iR dR : String)
    (saveOk : Bool) (fetchRes : Except String FrontsDocument)
    (h : (runAddDangerDialog s fid idD nR tR iR dR saveOk fetchRes).saveCalled = true) :
    PersistOutcome (runAddDangerDialog s fid idD nR tR iR dR saveOk fetchRes)
      s saveOk fetchRes := by
  unfold runAddDangerDialog at h ⊢
  by_cases hb : strTrim nR = ""
  · simp [hb, noOpStep] at h
  · rw [if_neg hb] at h ⊢
    cases hm : mutFrontDoc s.frontsData fid
      (fun f => { f with dangers := f.dangers ++
        [⟨idD, strTrim nR, (if strTrim tR = "" then "Unknown" else strTrim tR),
          (if strTrim iR = "" then "to cause chaos" else strTrim iR),
          (if strTrim dR = "" then "Destruction" else strTrim dR), [], [], []⟩] }) with
    | none =>
      simp only [hm] at h
      simp [noOpStep] at h
    | some doc =>
      simp only [hm]
      exact ⟨doc, rfl, rfl, rfl, rfl, [NoteKind.info], rfl⟩

theorem runAddSecretDialog_saveCalled (s : AppState) (did idS : String) (xpS : Int)
    (tS : String) (saveOk : Bool) (fetchRes : Except String FrontsDocument)
    (h : (runAddSecretDialog s did idS xpS tS saveOk fetchRes).saveCalled = true) :
    PersistOutcome (runAddSecretDialog s did idS xpS tS saveOk fetchRes)
      s saveOk fetchRes := by
  unfold runAddSecretDialog at h ⊢
  by_cases hb : strTrim tS = ""
  · simp [hb, noOpStep] at h
  · rw [if_neg hb] at h ⊢
    cases hm : mutDangerDoc s.frontsData did
      (fun d => { d with secrets := d.secrets ++
        [⟨idS, xpS, strTrim tS, false, none⟩] }) with
    | none =>
      simp only [hm] at h
      simp [noOpStep] at h
    | some doc =>
      simp only [hm]
      exact ⟨doc, rfl, rfl, rfl, rfl, [NoteKind.info], rfl⟩

theorem runEditDangerDialog_saveCalled (s : AppState) (did nR tR iR dR : String)
    (saveOk : Bool) (fetchRes : Except String FrontsDocument)
    (h : (runEditDangerDialog s did nR tR iR dR saveOk fetchRes).saveCalled = true) :
    PersistOutcome (runEditDangerDialog s did nR tR iR dR saveOk fetchRes)
      s saveOk fetchRes := by
  unfold runEditDangerDialog at h ⊢
  cases hm : mutDangerDoc s.frontsData did
    (fun d => { d with
      name := strTrim nR, dangerType := strTrim tR
      impulse := strTrim iR, impendingDoom := strTrim dR }) with
  | none =>
    simp only [hm] at h
    simp [noOpStep] at h
  | some doc =>
    simp only [hm]
    exact ⟨doc, rfl, rfl, rfl, rfl, [NoteKind.info], rfl⟩

theorem runEditSecretDialog_saveCalled (s : AppState) (did sid : String) (xpS : Int)
    (tS : String) (saveOk : Bool) (fetchRes : Except String FrontsDocument)
    (h : (runEditSecretDialog s did sid xpS tS saveOk fetchRes).saveCalled = true) :
    PersistOutcome (runEditSecretDialog s did sid xpS tS saveOk fetchRes)
      s saveOk fetchRes := by
  unfold runEditSecretDialog at h ⊢
  cases hm : mutSecretDoc s.frontsData did sid
    (fun x => { x with xp := xpS, text := strTrim tS }) with
  | none =>
    simp only [hm] at h
    simp [noOpStep] at h
  | some doc =>
    simp only [hm]
    exact ⟨doc, rfl, rfl, rfl, rfl, [NoteKind.info], rfl⟩

theorem runAction_persist_fields (s : AppState) (a : MutAction) (saveOk : Bool)
    (fetchRes : Except String FrontsDocument)
    (h : (runAction s a saveOk fetchRes).saveCalled = true) :
    PersistOutcome (runAction s a saveOk fetchRes) s saveOk fetchRes := by
  cases a with
  | editFrontName fid raw =>
    obtain ⟨doc, _, heq⟩ := runTextDialog_saveCalled _ _ _ _ _ h
    exact persistOutcome_of_tail heq
  | addCast fid raw =>
    obtain ⟨doc, _, heq⟩ := runTextDialog_saveCalled _ _ _ _ _ h
    exact persistOutcome_of_tail heq
  | editCast fid idx raw =>
    obtain ⟨doc, _, heq⟩ := runTextDialog_saveCalled _ _ _ _ _ h
    exact persistOutcome_of_tail heq
  | deleteCast fid idx =>
    obtain ⟨doc, _, heq⟩ := runDirect_saveCalled _ _ _ _ h
    exact persistOutcome_of_plain heq
  | addStake fid raw =>
    obtain ⟨doc, _, heq⟩ := runTextDialog_saveCalled _ _ _ _ _ h
    exact persistOutcome_of_tail heq
  | editStake fid idx raw =>
    obtain ⟨doc, _, heq⟩ := runTextDialog_saveCalled _ _ _ _ _ h
    exact persistOutcome_of_tail heq
  | deleteStake fid idx =>
    obtain ⟨doc, _, heq⟩ := runDirect_saveCalled _ _ _ _ h
    exact persistOutcome_of_plain heq
  | deleteDanger fid did confirmed =>
    cases confirmed with
    | false => simp [runAction, noOpStep] at h
    | true =>
      obtain ⟨doc, _, heq⟩ := runDirect_saveCalled _ _ _ _ h
      exact persistOutcome_of_plain heq
  | editImpulse did raw =>
    obtain ⟨doc, _, heq⟩ := runTextDialog_saveCalled _ _ _ _ _ h
    exact persistOutcome_of_tail heq
  | editDoom did raw =>
    obtain ⟨doc, _, heq⟩ := runTextDialog_saveCalled _ _ _ _ _ h
    exact persistOutcome_of_tail heq
  | addPortent did newId raw =>
    obtain ⟨doc, _, heq⟩ := runTextDialog_saveCalled _ _ _ _ _ h
    exact persistOutcome_of_tail heq
  | deletePortent did pid =>
    obtain ⟨doc, _, heq⟩ := runDirect_saveCalled _ _ _ _ h
    exact persistOutcome_of_plain heq
  | deleteSecret did sid =>
    obtain ⟨doc, _, heq⟩ := runDirect_saveCalled _ _ _ _ h
    exact persistOutcome_of_plain heq
  | addLocation did raw =>
    obtain ⟨doc, _, heq⟩ := runTextDialog_saveCalled _ _ _ _ _ h
    exact persistOutcome_of_tail heq
  | editLocation did idx raw =>
    obtain ⟨doc, _, heq⟩ := runTextDialog_saveCalled _ _ _ _ _ h
    exact persistOutcome_of_tail heq
  | deleteLocation did idx =>
    obtain ⟨doc, _, heq⟩ := runDirect_saveCalled _ _ _ _ h
    exact persistOutcome_of_plain heq
  | addFront newId nameRaw typeSel =>
    exact runAddFrontDialog_saveCalled _ _ _ _ _ _ h
  | addDanger fid newId nameRaw typeRaw impulseRaw doomRaw =>
    exact runAddDangerDialog_saveCalled _ _ _ _ _ _ _ _ _ h
  | addSecret did newId xpSel textRaw =>
    exact runAddSecretDialog_saveCalled _ _ _ _ _ _ _ h
  | editDanger did nameRaw typeRaw impulseRaw doomRaw =>
    exact runEditDangerDialog_saveCalled _ _ _ _ _ _ _ _ h
  | editPortent did pid raw =>
    obtain ⟨doc, _, heq⟩ := runTextDialog_saveCalled _ _ _ _ _ h
    exact persistOutcome_of_tail heq
  | editSecret did sid xpSel textRaw =>
    exact runEditSecretDialog_saveCalled _ _ _ _ _ _ _ h

/-- C1 counterexample: editing the front name on `sampleState` with the save
POST failing and the refetch succeeding: the error toast is shown, but —
contrary to the claim — the orchestrator still refetches and re-renders,
and the refetch replaces the in-memory mutation with the fetched
document. -/
theorem save_failure_no_refetch_counterexample_C1 :
    NoteKind.errorNote ∈ (runAction sampleState (MutAction.editFrontName "f1" "New Name")
      false (Except.ok otherDoc)).notes ∧
    (runAction sampleState (MutAction.editFrontName "f1" "New Name") false
      (Except.ok otherDoc)).fetchCalled = true ∧
    (runAction sampleState (MutAction.editFrontName "f1" "New Name") false
      (Except.ok otherDoc)).renderCalled = true ∧
    (runAction sampleState (MutAction.editFrontName "f1" "New Name") false
      (Except.ok otherDoc)).state.frontsData = some otherDoc := by
  decide

/-- C1 amended: for every mutating action of the orchestrator that reaches
the save, a failed save shows an error toast but the orchestrator still
refetches and re-renders unconditionally; a successful refetch then replaces the
in-memory document with the fetched one, and only when the refetch also
fails does the locally mutated copy (the save payload) remain in memory. -/
theorem save_failure_notifies_but_still_syncs_C1 (s : AppState) (a : MutAction)
    (fetchRes : Except String FrontsDocument)
    (h : (runAction s a false fetchRes).saveCalled = true) :
    NoteKind.errorNote ∈ (runAction s a false fetchRes).notes ∧
    (runAction s a false fetchRes).fetchCalled = true ∧
    (runAction s a false fetchRes).renderCalled = true ∧
    (∀ d, fetchRes = Except.ok d →
      (runAction s a false fetchRes).state.frontsData = some d) ∧
    (∀ m, fetchRes = Except.error m →
      (runAction s a false fetchRes).state.frontsData
        = (runAction s a false fetchRes).savedDoc) := by
  obtain ⟨doc, hsd, hfc, hrc, hfd, tail, hnotes⟩ :=
    runAction_persist_fields s a false fetchRes h
  refine ⟨?_, hfc, hrc, ?_, ?_⟩
  · rw [hnotes]
    simp [saveFronts]
  · intro d hd
    subst hd
    rw [hfd]
    rfl
  · intro m hm
    subst hm
    rw [hfd, hsd]
    rfl

/-- C1 amended witness: deleting a location with the save failing and the
refetch failing too — the mutated document stays in memory. -/
theorem save_failure_notifies_but_still_syncs_C1_witness :
    (runAction sampleState (MutAction.deleteLocation "d1" 0) false
      (Except.error "down")).saveCalled = true ∧
    NoteKind.errorNote ∈ (runAction sampleState (MutAction.deleteLocation "d1" 0) false
      (Except.error "down")).notes ∧
    (runAction sampleState (MutAction.deleteLocation "d1" 0) false
      (Except.error "down")).fetchCalled = true ∧
    (runAction sampleState (MutAction.deleteLocation "d1" 0) false
      (Except.error "down")).state.frontsData
      = (runAction sampleState (MutAction.deleteLocation "d1" 0) false
        (Except.error "down")).savedDoc := by
  have h := save_failure_notifies_but_still_syncs_C1 sampleState
    (MutAction.deleteLocation "d1" 0) (Except.error "down") (by decide)
  exact ⟨by decide, h.1, h.2.1, h.2.2.2.2 "down" rfl⟩

/-- C4: deleting a danger is gated on confirmation: without confirmation
the state (hence the document and its danger lists) is untouched and no
save call is issued; with confirmation, when the front resolves, the danger
is removed from that front and the resulting document is saved. -/
theorem delete_danger_confirmation_gating_C4 (s : AppState) (fid did : String)
    (saveOk : Bool) (fetchRes : Except String FrontsDocument) :
    runAction s (MutAction.deleteDanger fid did false) saveOk fetchRes = noOpStep s ∧
    (∀ f, findFront s.frontsData fid = some f →
      (runAction s (MutAction.deleteDanger fid did true) saveOk fetchRes).saveCalled
        = true ∧
      findFront (runAction s (MutAction.deleteDanger fid did true) saveOk
          fetchRes).savedDoc fid
        = some { f with dangers := f.dangers.filter (fun d => !(d.id = did)) }) := by
  constructor
  · rfl
  · intro f hf
    have hmut := findFront_mutFrontDoc s.frontsData fid
      (fun x => { x with dangers := x.dangers.filter (fun d => !(d.id = did)) }) f hf rfl
    obtain ⟨d0, hd0⟩ := Option.ne_none_iff_exists'.mp hmut.1
    constructor
    · simp only [runAction, hd0]
      rfl
    · have hfound := hmut.2
      rw [hd0] at hfound
      simp only [runAction, hd0]
      exact hfound

/-- C4 witness: declining then confirming the deletion of danger `d1`. -/
theorem delete_danger_confirmation_gating_C4_witness :
    runAction sampleState (MutAction.deleteDanger "f1" "d1" false) true (Except.ok otherDoc)
      = noOpStep sampleState ∧
    (runAction sampleState (MutAction.deleteDanger "f1" "d1" true) true
      (Except.ok otherDoc)).saveCalled = true ∧
    findFront (runAction sampleState (MutAction.deleteDanger "f1" "d1" true) true
        (Except.ok otherDoc)).savedDoc "f1"
      = some { sampleFront with
          dangers := sampleFront.dangers.filter (fun d => !(d.id = "d1")) } := by
  have h := delete_danger_confirmation_gating_C4 sampleState "f1" "d1" true (Except.ok otherDoc)
  have h2 := h.2 sampleFront (by decide)
  exact ⟨h.1, h2.1, h2.2⟩

/-- C2 counterexample: the edit-danger dialog has no blank check — submitting
a whitespace-only name on `sampleState` still mutates the danger (its name
becomes empty) and still issues the save call. -/
theorem edit_danger_blank_saves_counterexample_C2 :
    (runEditDangerDialog sampleState "d1" "   " "t" "i" "dm" true
      (Except.error "down")).saveCalled = true ∧
    (findDanger (runEditDangerDialog sampleState "d1" "   " "t" "i" "dm" true
        (Except.error "down")).state.frontsData "d1").map (fun p => p.2.name)
      = some "" := by
  decide

/-- C2 amended: the single-text edit dialog and the three creation dialogs
(front, danger, secret) reject a blank or whitespace-only required text
value: no mutation is applied and no save call is issued.  The edit-danger
(and edit-secret) dialogs, by contrast, apply the trimmed values
unconditionally, mutating and saving even when the value is blank. -/
theorem blank_input_rejected_in_checking_dialogs_C2 (s : AppState) (raw : String)
    (onSave : String → Option FrontsDocument) (idF idD idS tySel frontId dangerId : String)
    (tRaw iRaw dRaw : String) (xpSel : Int) (saveOk : Bool)
    (fetchRes : Except String FrontsDocument) (h : strTrim raw = "") :
    runTextDialog s raw onSave saveOk fetchRes = noOpStep s ∧
    runAddFrontDialog s idF raw tySel saveOk fetchRes = noOpStep s ∧
    runAddDangerDialog s frontId idD raw tRaw iRaw dRaw saveOk fetchRes = noOpStep s ∧
    runAddSecretDialog s dangerId idS xpSel raw saveOk fetchRes = noOpStep s := by
  refine ⟨?_, ?_, ?_, ?_⟩
  · simp [runTextDialog, h]
  · simp [runAddFrontDialog, h]
  · simp [runAddDangerDialog, h]
  · simp [runAddSecretDialog, h]

/-- C2 amended witness: a whitespace-only submission to each checking
dialog on `sampleState` is a no-op. -/
theorem blank_input_rejected_in_checking_dialogs_C2_witness :
    strTrim "   " = "" ∧
    runTextDialog sampleState "   "
      (fun v => mutFrontDoc sampleState.frontsData "f1" (fun f => { f with name := v }))
      true (Except.ok otherDoc) = noOpStep sampleState ∧
    runAddFrontDialog sampleState "front-2" "   " "campaign" true (Except.ok otherDoc)
      = noOpStep sampleState ∧
    runAddDangerDialog sampleState "f1" "danger-2" "   " "t" "i" "dm" true
      (Except.ok otherDoc) = noOpStep sampleState ∧
    runAddSecretDialog sampleState "d1" "secret-2" 30 "   " true (Except.ok otherDoc)
      = noOpStep sampleState := by
  have h := blank_input_rejected_in_checking_dialogs_C2 sampleState "   "
    (fun v => mutFrontDoc sampleState.frontsData "f1" (fun f => { f with name := v }))
    "front-2" "danger-2" "secret-2" "campaign" "f1" "d1" "t" "i" "dm" 30 true
    (Except.ok otherDoc) (by decide)
  exact ⟨by decide, h.1, h.2.1, h.2.2.1, h.2.2.2⟩

/-- C7: creation defaults.  A created front carries the trimmed name, the
selected type, and empty `cast`, `stakes`, `playerHooks` and `dangers`; a
created danger carries the trimmed submitted name, dangerType, impulse and
doom (when non-blank) and empty `grimPortents`, `secrets` and `locations`;
a created secret carries the selected xp and trimmed text with
`revealed = false` and `revealedAt = null`.  Each conjunct inspects the
document handed to the save POST. -/
theorem creation_defaults_C7 (s : AppState) (d : FrontsDocument)
    (idF idD idS tySel fid did : String) (nameF nameD tD iD dmD textS : String)
    (xpS : Int) (saveOk : Bool) (fetchRes : Except String FrontsDocument) :
    (s.frontsData = some d → strTrim nameF ≠ "" →
      (runAddFrontDialog s idF nameF tySel saveOk fetchRes).savedDoc =
        some ⟨d.fronts ++ [⟨idF, strTrim nameF, tySel, [], [], [], []⟩]⟩) ∧
    (∀ f, findFront s.frontsData fid = some f → strTrim nameD ≠ "" →
      strTrim tD ≠ "" → strTrim iD ≠ "" → strTrim dmD ≠ "" →
      findFront (runAddDangerDialog s fid idD nameD tD iD dmD saveOk
          fetchRes).savedDoc fid
        = some { f with dangers := f.dangers ++
            [⟨idD, strTrim nameD, strTrim tD, strTrim iD, strTrim dmD, [], [], []⟩] }) ∧
    (∀ f dg, findDanger s.frontsData did = some (f, dg) → strTrim textS ≠ "" →
      (findDanger (runAddSecretDialog s did idS xpS textS saveOk
          fetchRes).savedDoc did).map Prod.snd
        = some { dg with secrets := dg.secrets ++
            [⟨idS, xpS, strTrim textS, false, none⟩] }) := by
  refine ⟨?_, ?_, ?_⟩
  · intro hdoc hname
    simp only [runAddFrontDialog, hdoc, if_neg hname]
    rfl
  · intro f hfind hname htype himp hdoom
    have hmut := findFront_mutFrontDoc s.frontsData fid
      (fun fr => { fr with dangers := fr.dangers ++
        [{ id := idD, name := strTrim nameD, dangerType := strTrim tD
           impulse := strTrim iD, impendingDoom := strTrim dmD
           grimPortents := [], secrets := [], locations := [] }] }) f hfind rfl
    obtain ⟨d0, hd0⟩ := Option.ne_none_iff_exists'.mp hmut.1
    have hfound := hmut.2
    rw [hd0] at hfound
    simp only [runAddDangerDialog, if_neg hname, if_neg htype, if_neg himp,
      if_neg hdoom, hd0]
    exact hfound
  · intro f dg hfind htext
    have hmut := findDanger_mutDangerDoc s.frontsData did
      (fun x => { x with secrets := x.secrets ++
        [{ id := idS, xp := xpS, text := strTrim textS
           revealed := false, revealedAt := none }] }) f dg hfind rfl
    obtain ⟨d0, hd0⟩ := Option.ne_none_iff_exists'.mp hmut.1
    have hfound := hmut.2
    rw [hd0] at hfound
    simp only [runAddSecretDialog, if_neg htext, hd0]
    exact hfound

/-- C7 witness: the scenario of the spec — create a front, add a danger to
`f1`, add a 30xp secret to `d1` — checked on `sampleState`. -/
theorem creation_defaults_C7_witness :
    (runAddFrontDialog sampleState "front-9" "The Hollow King" "campaign" true
      (Except.ok otherDoc)).savedDoc =
      some ⟨sampleDoc.fronts ++
        [⟨"front-9", "The Hollow King", "campaign", [], [], [], []⟩]⟩ ∧
    findFront (runAddDangerDialog sampleState "f1" "danger-9" "Cult of Ash"
        "Ambitious Organizations" "to spread corruption" "Usurpation" true
        (Except.ok otherDoc)).savedDoc "f1"
      = some { sampleFront with dangers := sampleFront.dangers ++
          [⟨"danger-9", "Cult of Ash", "Ambitious Organizations",
            "to spread corruption", "Usurpation", [], [], []⟩] } ∧
    (findDanger (runAddSecretDialog sampleState "d1" "secret-9" 30
        "The cult leader is the mayors brother." true
        (Except.ok otherDoc)).savedDoc "d1").map Prod.snd
      = some { sampleDanger with secrets := sampleDanger.secrets ++
          [⟨"secret-9", 30, "The cult leader is the mayors brother.", false, none⟩] } := by
  have h := creation_defaults_C7 sampleState sampleDoc "front-9" "danger-9" "secret-9"
    "campaign" "f1" "d1" "The Hollow King" "Cult of Ash" "Ambitious Organizations"
    "to spread corruption" "Usurpation" "The cult leader is the mayors brother."
    30 true (Except.ok otherDoc)
  have h1 := h.1 rfl (by decide)
  have h2 := h.2.1 sampleFront (by decide) (by decide) (by decide) (by decide) (by decide)
  have h3 := h.2.2 sampleFront sampleDanger (by decide) (by decide)
  refine ⟨?_, ?_, ?_⟩
  · rw [h1]
    decide
  · rw [h2]
    decide
  · rw [h3]
    decide

/-- C9 witness: toggling `a` on the singleton set, and double-toggling the
handler steps on `sampleState`. -/
theorem toggle_expansion_involution_C9_witness :
    ("a" ∈ toggleId {"a"} "a" ↔ "a" ∉ ({"a"} : Finset String)) ∧
    ("b" : String) ≠ "a" ∧
    ("b" ∈ toggleId {"a"} "a" ↔ "b" ∈ ({"a"} : Finset String)) ∧
    toggleId (toggleId {"a"} "a") "a" = {"a"} ∧
    toggleFrontStep (toggleFrontStep sampleState "f1") "f1" = sampleState ∧
    toggleDangerStep (toggleDangerStep sampleState "d1") "d1" = sampleState := by
  have h := toggle_expansion_involution_C9 {"a"} "a" "b" sampleState "f1" "d1"
  exact ⟨h.1, by decide, h.2.1 (by decide), h.2.2.1, h.2.2.2.1, h.2.2.2.2⟩

end FrontManager
